import Mathlib

/-!
Verification development for the chatgpt-c-library conversation core
(src/chatgpt.c, src/chatgpt.h).

C strings are modelled as `List Char` (one entry per byte; a C string can
never contain the NUL byte).  The JSON library the code links against
(cJSON, included as `cJSON.h` but not itself part of the analysed sources)
is modelled from the spec as a small structured-document codec: values,
an unformatted printer, and a recursive-descent reader.  Pointers that can
be NULL are modelled as `Option`; out-of-memory failure paths are not
modelled (allocation is assumed to succeed).
-/

namespace ChatC

/-- The characters of a string literal, used to write concrete C strings. -/
def chars (s : String) : List Char := s.data

/-!
## The structured-document model (cJSON)

Modelled from the spec: the code parses request/response bodies "as a
structured document" through the bundled cJSON library, whose sources are
not part of src/.  `JVal` is the document tree; numbers carry an exact
rational value (cJSON stores a double).
-/

/-- Modelled from the spec: a cJSON document node — null, boolean, number,
string, array or object (an ordered member list). -/
inductive JVal where
  | jnull : JVal
  | jbool : Bool → JVal
  | jnum : Rat → JVal
  | jstr : List Char → JVal
  | jarr : List JVal → JVal
  | jobj : List (List Char × JVal) → JVal

/-- Lowercase hex digit character for a value below 16. -/
def hex_char (n : Nat) : Char :=
  if n < 10 then Char.ofNat (48 + n) else Char.ofNat (87 + n)

/-- Modelled from the spec: cJSON string escaping — quote, backslash and the
named control escapes, any other control byte as a `\u00XX` escape, and every
other byte passed through unchanged. -/
def esc_char (c : Char) : List Char :=
  if c = '"' then ['\\', '"']
  else if c = '\\' then ['\\', '\\']
  else if c = Char.ofNat 8 then ['\\', 'b']
  else if c = Char.ofNat 12 then ['\\', 'f']
  else if c = '\n' then ['\\', 'n']
  else if c = '\r' then ['\\', 'r']
  else if c = '\t' then ['\\', 't']
  else if c.toNat < 32 then
    ['\\', 'u', '0', '0', hex_char (c.toNat / 16), hex_char (c.toNat % 16)]
  else [c]

/-- A quoted, escaped JSON string. -/
def emit_str (s : List Char) : List Char :=
  '"' :: (s.flatMap esc_char ++ ['"'])

/-- Decimal digit characters of a natural number, most significant first. -/
def nat_chars (n : Nat) : List Char :=
  if n < 10 then [Char.ofNat (48 + n)]
  else nat_chars (n / 10) ++ [Char.ofNat (48 + n % 10)]
termination_by n
decreasing_by
  exact Nat.div_lt_self (by omega) (by omega)

/-- Optional minus sign followed by decimal digits. -/
def int_chars (i : Int) : List Char :=
  (if i < 0 then ['-'] else []) ++ nat_chars i.natAbs

/-- The exponent `k` with `d = 10 ^ k`, when there is one. -/
def pow10_of : Nat → Option Nat
  | 0 => none
  | 1 => some 0
  | d + 2 =>
    if (d + 2) % 10 = 0 then (pow10_of ((d + 2) / 10)).map (· + 1) else none
termination_by d => d
decreasing_by
  exact Nat.div_lt_self (by omega) (by omega)

/-- Left-pad a digit run with zeros to `k` characters. -/
def zero_pad (k : Nat) (ds : List Char) : List Char :=
  List.replicate (k - ds.length) '0' ++ ds

/-- Modelled from the spec: cJSON number printing, exact for values whose
denominator is a power of ten (the only numbers this code ever prints);
other rationals fall back to their truncated integer part. -/
def emit_num (q : Rat) : List Char :=
  match pow10_of q.den with
  | some 0 => int_chars q.num
  | some (k + 1) =>
    (if q.num < 0 then ['-'] else []) ++
      nat_chars (q.num.natAbs / 10 ^ (k + 1)) ++
      '.' :: zero_pad (k + 1) (nat_chars (q.num.natAbs % 10 ^ (k + 1)))
  | none => int_chars (q.num / (q.den : Int))

mutual
/-- Modelled from the spec: the unformatted cJSON printer (no whitespace). -/
def emit : JVal → List Char
  | .jnull => ['n', 'u', 'l', 'l']
  | .jbool true => ['t', 'r', 'u', 'e']
  | .jbool false => ['f', 'a', 'l', 's', 'e']
  | .jnum q => emit_num q
  | .jstr s => emit_str s
  | .jarr xs => '[' :: (emit_items xs ++ [']'])
  | .jobj ms => '{' :: (emit_fields ms ++ ['}'])

/-- Comma-separated array elements. -/
def emit_items : List JVal → List Char
  | [] => []
  | [v] => emit v
  | v :: w :: vs => emit v ++ ',' :: emit_items (w :: vs)

/-- Comma-separated `"key":value` object members. -/
def emit_fields : List (List Char × JVal) → List Char
  | [] => []
  | [(k, v)] => emit_str k ++ ':' :: emit v
  | (k, v) :: f :: fs => emit_str k ++ ':' :: emit v ++ ',' :: emit_fields (f :: fs)
end

/-- JSON whitespace: a byte at most 32, but not the NUL terminator. -/
def json_ws (c : Char) : Bool := c.toNat ≤ 32 && c.toNat != 0

/-- Drop leading whitespace. -/
def skip_ws : List Char → List Char
  | [] => []
  | c :: cs => if json_ws c then skip_ws cs else c :: cs

/-- Value of a hex digit character. -/
def hex_digit_val (c : Char) : Option Nat :=
  if 48 ≤ c.toNat ∧ c.toNat ≤ 57 then some (c.toNat - 48)
  else if 97 ≤ c.toNat ∧ c.toNat ≤ 102 then some (c.toNat - 87)
  else if 65 ≤ c.toNat ∧ c.toNat ≤ 70 then some (c.toNat - 55)
  else none

/-- A code point a `Char` can carry (no surrogate halves). -/
def valid_scalar (n : Nat) : Bool :=
  if n < 55296 then true else if 57344 ≤ n ∧ n < 1114112 then true else false

/-- The character a single-character escape stands for. -/
def esc_unquote : Char → Option Char
  | '"' => some '"'
  | '\\' => some '\\'
  | '/' => some '/'
  | 'b' => some (Char.ofNat 8)
  | 'f' => some (Char.ofNat 12)
  | 'n' => some '\n'
  | 'r' => some '\r'
  | 't' => some '\t'
  | _ => none

/-- Modelled from the spec: the reader for a string body after its opening
quote, accumulating decoded characters until the closing quote; fails on a
bad escape, an embedded NUL or a missing closing quote. -/
def parse_str_body : List Char → List Char → Option (List Char × List Char)
  | [], _ => none
  | c :: rest, acc =>
    if c = '"' then some (acc.reverse, rest)
    else if c = '\\' then
      match rest with
      | [] => none
      | e :: rest2 =>
        if e = 'u' then
          match rest2 with
          | a :: b :: x :: d :: rest3 =>
            match hex_digit_val a, hex_digit_val b, hex_digit_val x, hex_digit_val d with
            | some va, some vb, some vx, some vd =>
              let n := ((va * 16 + vb) * 16 + vx) * 16 + vd
              if valid_scalar n then parse_str_body rest3 (Char.ofNat n :: acc) else none
            | _, _, _, _ => none
          | _ => none
        else
          match esc_unquote e with
          | some ch => parse_str_body rest2 (ch :: acc)
          | none => none
    else if c.toNat = 0 then none
    else parse_str_body rest (c :: acc)

/-- A decimal digit character. -/
def is_digit_ch (c : Char) : Bool := 48 ≤ c.toNat && c.toNat ≤ 57

/-- Take a leading run of decimal digits, as digit values. -/
def digit_run : List Char → List Nat × List Char
  | [] => ([], [])
  | c :: cs =>
    if is_digit_ch c then
      let p := digit_run cs
      ((c.toNat - 48) :: p.1, p.2)
    else ([], c :: cs)

/-- The natural number a digit-value run denotes. -/
def digits_val (ds : List Nat) : Nat := ds.foldl (fun a d => a * 10 + d) 0

/-- Modelled from the spec: the cJSON number reader — optional minus sign,
integer digits, optional fraction, optional exponent; the exact rational
value is kept. -/
def parse_number (cs : List Char) : Option (JVal × List Char) :=
  let sgn := match cs with | '-' :: r => (true, r) | _ => (false, cs)
  let ip := digit_run sgn.2
  if ip.1.isEmpty then none
  else
    let fp := match ip.2 with | '.' :: r => digit_run r | _ => ([], ip.2)
    let ep : (Bool × List Nat) × List Char :=
      match fp.2 with
      | 'e' :: '-' :: r => let d := digit_run r; ((true, d.1), d.2)
      | 'e' :: '+' :: r => let d := digit_run r; ((false, d.1), d.2)
      | 'e' :: r => let d := digit_run r; ((false, d.1), d.2)
      | 'E' :: '-' :: r => let d := digit_run r; ((true, d.1), d.2)
      | 'E' :: '+' :: r => let d := digit_run r; ((false, d.1), d.2)
      | 'E' :: r => let d := digit_run r; ((false, d.1), d.2)
      | _ => ((false, []), fp.2)
    let mant : Int := (if sgn.1 then -1 else 1) * (digits_val (ip.1 ++ fp.1) : Int)
    let base : Rat := (mant : Rat) / ((10 ^ fp.1.length : Nat) : Rat)
    let q : Rat :=
      if ep.1.1 then base / ((10 ^ digits_val ep.1.2 : Nat) : Rat)
      else base * ((10 ^ digits_val ep.1.2 : Nat) : Rat)
    some (.jnum q, ep.2)

mutual
/-- Modelled from the spec: the recursive-descent cJSON value reader.  The
fuel argument bounds recursion; the entry point supplies more fuel than any
input can consume. -/
def parse_value : Nat → List Char → Option (JVal × List Char)
  | 0, _ => none
  | f + 1, cs =>
    match skip_ws cs with
    | 'n' :: 'u' :: 'l' :: 'l' :: r => some (.jnull, r)
    | 't' :: 'r' :: 'u' :: 'e' :: r => some (.jbool true, r)
    | 'f' :: 'a' :: 'l' :: 's' :: 'e' :: r => some (.jbool false, r)
    | '"' :: r =>
      match parse_str_body r [] with
      | some p => some (.jstr p.1, p.2)
      | none => none
    | '[' :: r =>
      match skip_ws r with
      | ']' :: r2 => some (.jarr [], r2)
      | r2 =>
        match parse_items f r2 with
        | some p => some (.jarr p.1, p.2)
        | none => none
    | '{' :: r =>
      match skip_ws r with
      | '}' :: r2 => some (.jobj [], r2)
      | r2 =>
        match parse_fields f r2 with
        | some p => some (.jobj p.1, p.2)
        | none => none
    | c :: r => if c = '-' || is_digit_ch c then parse_number (c :: r) else none
    | [] => none

/-- One or more comma-separated array elements up to the closing bracket. -/
def parse_items : Nat → List Char → Option (List JVal × List Char)
  | 0, _ => none
  | f + 1, cs =>
    match parse_value f cs with
    | none => none
    | some (v, r) =>
      match skip_ws r with
      | ',' :: r2 =>
        match parse_items f r2 with
        | some p => some (v :: p.1, p.2)
        | none => none
      | ']' :: r2 => some ([v], r2)
      | _ => none

/-- One or more comma-separated object members up to the closing brace. -/
def parse_fields : Nat → List Char → Option (List (List Char × JVal) × List Char)
  | 0, _ => none
  | f + 1, cs =>
    match skip_ws cs with
    | '"' :: r =>
      match parse_str_body r [] with
      | none => none
      | some (key, r1) =>
        match skip_ws r1 with
        | ':' :: r2 =>
          match parse_value f r2 with
          | none => none
          | some (v, r3) =>
            match skip_ws r3 with
            | ',' :: r4 =>
              match parse_fields f r4 with
              | some p => some ((key, v) :: p.1, p.2)
              | none => none
            | '}' :: r4 => some ([(key, v)], r4)
            | _ => none
        | _ => none
    | _ => none
end

/-- Modelled from the spec: `cJSON_Parse` — read one document value from the
buffer (trailing bytes are not rejected), or fail on malformed input. -/
def cJSON_Parse (cs : List Char) : Option JVal :=
  (parse_value (cs.length + 1) cs).map Prod.fst

/-- Modelled from the spec: `cJSON_PrintUnformatted`. -/
def cJSON_PrintUnformatted : JVal → List Char := emit

/-- First member of an object member list with the given name. -/
def find_member : List (List Char × JVal) → List Char → Option JVal
  | [], _ => none
  | (k, v) :: ms, key => if k = key then some v else find_member ms key

/-- Modelled from the spec: `cJSON_GetObjectItem` — the named member of an
object node, NULL (here `none`) otherwise. -/
def cJSON_GetObjectItem : JVal → List Char → Option JVal
  | .jobj ms, key => find_member ms key
  | _, _ => none

/-- Modelled from the spec: `cJSON_IsString`. -/
def cJSON_IsString : JVal → Bool
  | .jstr _ => true
  | _ => false

/-- Modelled from the spec: `cJSON_IsArray`. -/
def cJSON_IsArray : JVal → Bool
  | .jarr _ => true
  | _ => false

/-- Modelled from the spec: `cJSON_IsNumber`. -/
def cJSON_IsNumber : JVal → Bool
  | .jnum _ => true
  | _ => false

/-- Modelled from the spec: the `valuestring` field of a string node. -/
def cJSON_valuestring : JVal → List Char
  | .jstr s => s
  | _ => []

/-- Modelled from the spec: the `valueint` field — the truncated numeric value. -/
def cJSON_valueint : JVal → Int
  | .jnum q => q.num / (q.den : Int)
  | _ => 0

/-- Modelled from the spec: `cJSON_GetArraySize` (0 for non-arrays). -/
def cJSON_GetArraySize : JVal → Nat
  | .jarr xs => xs.length
  | _ => 0

/-- Modelled from the spec: `cJSON_GetArrayItem`. -/
def cJSON_GetArrayItem : JVal → Nat → Option JVal
  | .jarr xs, i => xs.get? i
  | _, _ => none

/-!
## The conversation data model (chatgpt.h)

Translated from `ChatGPTMessage`, `ChatGPTUsage`, `ChatGPT_ErrorCode` and
`struct ChatGPTConversation` in src/chatgpt.h.  C doubles are modelled as
rationals; C `int`/`long` as `Int`; the dynamic message array as a list
(its capacity field only serves allocation, which is not modelled).
-/

/-- One conversation turn (src/chatgpt.h, `ChatGPTMessage`). -/
structure ChatGPTMessage where
  role : List Char
  content : List Char
deriving DecidableEq

/-- Token usage (src/chatgpt.h, `ChatGPTUsage`). -/
structure ChatGPTUsage where
  prompt_tokens : Int
  completion_tokens : Int
  total_tokens : Int
deriving DecidableEq

/-- Library error codes (src/chatgpt.h, `ChatGPT_ErrorCode`). -/
inductive ChatGPT_ErrorCode where
  | CHATGPT_OK
  | CHATGPT_ERR_OOM
  | CHATGPT_ERR_INVALID_ARG
  | CHATGPT_ERR_HTTP
  | CHATGPT_ERR_JSON_PARSE
  | CHATGPT_ERR_API
  | CHATGPT_ERR_STREAM
  | CHATGPT_ERR_STATE
deriving DecidableEq

/-- The conversation aggregate (src/chatgpt.h, `struct ChatGPTConversation`). -/
structure ChatGPTConversation where
  api_key : List Char
  model : List Char
  temperature : Rat
  top_p : Rat
  max_tokens : Int
  presence_penalty : Rat
  frequency_penalty : Rat
  base_url : List Char
  use_streaming : Int
  context_messages : Int
  max_retries : Int
  retry_delay_ms : Int
  messages : List ChatGPTMessage
  last_usage : ChatGPTUsage
  last_reply : Option (List Char)
  last_error : List Char
  last_code : ChatGPT_ErrorCode
  last_http_code : Int
deriving DecidableEq

/-- src/chatgpt.c `set_error` (lines 105-118): store the code and the message
truncated to the 512-byte `last_error` buffer (511 bytes plus terminator). -/
def set_error (c : ChatGPTConversation) (code : ChatGPT_ErrorCode) (msg : List Char) :
    ChatGPTConversation :=
  { c with last_code := code, last_error := msg.take 511 }

/-- src/chatgpt.c `chatgpt_clear_error` (lines 437-443). -/
def chatgpt_clear_error (c : ChatGPTConversation) : ChatGPTConversation :=
  { c with last_error := [], last_code := .CHATGPT_OK, last_http_code := 0 }

/-- src/chatgpt.c `chatgpt_last_error` (lines 450-452). -/
def chatgpt_last_error (c : ChatGPTConversation) : List Char := c.last_error

/-- src/chatgpt.c `chatgpt_last_code` (lines 459-461). -/
def chatgpt_last_code (c : ChatGPTConversation) : ChatGPT_ErrorCode := c.last_code

/-- src/chatgpt.c `chatgpt_last_http_code` (lines 1566-1568). -/
def chatgpt_last_http_code (c : ChatGPTConversation) : Int := c.last_http_code

/-- src/chatgpt.c `chatgpt_last_reply` (lines 918-920). -/
def chatgpt_last_reply (c : ChatGPTConversation) : Option (List Char) := c.last_reply

/-- src/chatgpt.c `chatgpt_conversation_new` (lines 287-325), for a non-NULL
key (the process-global fallback key is outside this model); a NULL model
argument selects the default model. -/
def chatgpt_conversation_new (api_key : List Char) (model : Option (List Char)) :
    ChatGPTConversation where
  api_key := api_key
  model := model.getD (chars "gpt-4o-mini")
  temperature := (7 : Rat) / 10
  top_p := 1
  max_tokens := 0
  presence_penalty := 0
  frequency_penalty := 0
  base_url := chars "https://api.openai.com"
  use_streaming := 1
  context_messages := 5
  max_retries := 3
  retry_delay_ms := 1000
  messages := []
  last_usage := { prompt_tokens := 0, completion_tokens := 0, total_tokens := 0 }
  last_reply := none
  last_error := []
  last_code := .CHATGPT_OK
  last_http_code := 0

/-- src/chatgpt.c `chatgpt_set_max_tokens` (lines 580-585): reject a negative
value, otherwise store it.  (The NULL-conversation branch of the same test is
outside the model.) -/
def chatgpt_set_max_tokens (c : ChatGPTConversation) (n : Int) :
    ChatGPT_ErrorCode × ChatGPTConversation :=
  if n < 0 then (.CHATGPT_ERR_INVALID_ARG, c)
  else (.CHATGPT_OK, { c with max_tokens := n })

/-- src/chatgpt.c `chatgpt_set_context_messages` (lines 627-632). -/
def chatgpt_set_context_messages (c : ChatGPTConversation) (n : Int) :
    ChatGPT_ErrorCode × ChatGPTConversation :=
  if n < 0 then (.CHATGPT_ERR_INVALID_ARG, c)
  else (.CHATGPT_OK, { c with context_messages := n })

/-- src/chatgpt.c `chatgpt_set_retry_config` (lines 641-647). -/
def chatgpt_set_retry_config (c : ChatGPTConversation) (max_retries delay_ms : Int) :
    ChatGPT_ErrorCode × ChatGPTConversation :=
  if max_retries < 0 ∨ delay_ms < 0 then (.CHATGPT_ERR_INVALID_ARG, c)
  else (.CHATGPT_OK, { c with max_retries := max_retries, retry_delay_ms := delay_ms })

/-- src/chatgpt.c `chatgpt_add_message` (lines 667-692): append owned copies
of role and content (allocation failure not modelled). -/
def chatgpt_add_message (c : ChatGPTConversation) (role content : List Char) :
    ChatGPT_ErrorCode × ChatGPTConversation :=
  (.CHATGPT_OK, { c with messages := c.messages ++ [{ role := role, content := content }] })

/-- src/chatgpt.c `chatgpt_add_user` (lines 700-702). -/
def chatgpt_add_user (c : ChatGPTConversation) (t : List Char) :
    ChatGPT_ErrorCode × ChatGPTConversation :=
  chatgpt_add_message c (chars "user") t

/-- src/chatgpt.c `chatgpt_add_system` (lines 710-712). -/
def chatgpt_add_system (c : ChatGPTConversation) (t : List Char) :
    ChatGPT_ErrorCode × ChatGPTConversation :=
  chatgpt_add_message c (chars "system") t

/-- src/chatgpt.c `chatgpt_add_assistant` (lines 720-722). -/
def chatgpt_add_assistant (c : ChatGPTConversation) (t : List Char) :
    ChatGPT_ErrorCode × ChatGPTConversation :=
  chatgpt_add_message c (chars "assistant") t

/-- src/chatgpt.c `chatgpt_clear_messages` (lines 730-742). -/
def chatgpt_clear_messages (c : ChatGPTConversation) :
    ChatGPT_ErrorCode × ChatGPTConversation :=
  (.CHATGPT_OK, { c with messages := [] })

/-!
## Request building and persistence
-/

/-- A message serialized as a `{role, content}` object, as both
`chatgpt_build_messages_json` and `build_request_body` produce it. -/
def msg_json (m : ChatGPTMessage) : JVal :=
  .jobj [(chars "role", .jstr m.role), (chars "content", .jstr m.content)]

/-- The document built by src/chatgpt.c `chatgpt_build_messages_json`
(lines 237-266): a JSON array of every message in order.  (The NULL-field
fallbacks of the C loop cannot arise here: modelled messages always own
both strings.) -/
def messages_json (c : ChatGPTConversation) : JVal :=
  .jarr (c.messages.map msg_json)

/-- src/chatgpt.c `chatgpt_build_messages_json` (lines 237-266), printed. -/
def chatgpt_build_messages_json (c : ChatGPTConversation) : List Char :=
  cJSON_PrintUnformatted (messages_json c)

/-- src/chatgpt.c `chatgpt_save_conversation` (lines 936-956): write the
printed message array to the file.  The model returns the written file
contents (the success path; fopen failure is outside the model). -/
def chatgpt_save_conversation (c : ChatGPTConversation) : List Char :=
  chatgpt_build_messages_json c

/-- The per-element body of the `cJSON_ArrayForEach` loop in
src/chatgpt.c `chatgpt_load_conversation` (lines 1006-1014): add the entry
when both fields are present strings, silently skip it otherwise. -/
def load_item (c : ChatGPTConversation) (it : JVal) : ChatGPTConversation :=
  match cJSON_GetObjectItem it (chars "role"), cJSON_GetObjectItem it (chars "content") with
  | some r, some t =>
    if cJSON_IsString r && cJSON_IsString t then
      (chatgpt_add_message c (cJSON_valuestring r) (cJSON_valuestring t)).2
    else c
  | _, _ => c

/-- src/chatgpt.c `chatgpt_load_conversation` (lines 964-1018).  The file is
modelled as `Option` contents (`none`: the file cannot be read).  Existing
messages are cleared only after the contents parse as an array; every
well-formed `{role, content}` element is then appended in order. -/
def chatgpt_load_conversation (c : ChatGPTConversation) (contents : Option (List Char)) :
    ChatGPT_ErrorCode × ChatGPTConversation :=
  match contents with
  | none => (.CHATGPT_ERR_HTTP, c)
  | some buf =>
    match cJSON_Parse buf with
    | none => (.CHATGPT_ERR_JSON_PARSE, c)
    | some root =>
      match root with
      | .jarr items => (.CHATGPT_OK, items.foldl load_item (chatgpt_clear_messages c).2)
      | _ => (.CHATGPT_ERR_JSON_PARSE, c)

/-- The document built by src/chatgpt.c `build_request_body` (lines
1036-1094): model, then a `messages` array over the WHOLE message list
(the loop runs `i` from 0 to `message_count`; `context_messages` is never
read), then the sampling fields, the penalties and `max_tokens` only when
non-default, and `stream` only when requested. -/
def request_body_json (c : ChatGPTConversation) (stream : Bool) : JVal :=
  .jobj ([(chars "model", .jstr c.model),
          (chars "messages", .jarr (c.messages.map msg_json)),
          (chars "temperature", .jnum c.temperature),
          (chars "top_p", .jnum c.top_p)]
    ++ (if c.presence_penalty ≠ 0 then [(chars "presence_penalty", .jnum c.presence_penalty)] else [])
    ++ (if c.frequency_penalty ≠ 0 then [(chars "frequency_penalty", .jnum c.frequency_penalty)] else [])
    ++ (if c.max_tokens > 0 then [(chars "max_tokens", .jnum (c.max_tokens : Rat))] else [])
    ++ (if stream then [(chars "stream", .jbool true)] else []))

/-- src/chatgpt.c `build_request_body` (lines 1036-1094), printed. -/
def build_request_body (c : ChatGPTConversation) (stream : Bool) : List Char :=
  cJSON_PrintUnformatted (request_body_json c stream)

/-!
## The buffered completion exchange
-/

/-- What one `curl_easy_perform` of the buffered request observes: either a
transport-level failure with curl's description, or a response that arrived
with an HTTP status and an accumulated body (`write_cb`, lines 1119-1134). -/
inductive HttpOutcome where
  | neterr : List Char → HttpOutcome
  | reply : Int → List Char → HttpOutcome

/-- The `usage` extraction block of src/chatgpt.c `chatgpt_chat_complete`
(lines 1271-1287): each of the three token counters is updated only when
present as a number. -/
def apply_usage (c : ChatGPTConversation) (root : JVal) : ChatGPTConversation :=
  match cJSON_GetObjectItem root (chars "usage") with
  | none => c
  | some u =>
    let c1 :=
      match cJSON_GetObjectItem u (chars "prompt_tokens") with
      | some pt =>
        if cJSON_IsNumber pt then
          { c with last_usage := { c.last_usage with prompt_tokens := cJSON_valueint pt } }
        else c
      | none => c
    let c2 :=
      match cJSON_GetObjectItem u (chars "completion_tokens") with
      | some ct =>
        if cJSON_IsNumber ct then
          { c1 with last_usage := { c1.last_usage with completion_tokens := cJSON_valueint ct } }
        else c1
      | none => c1
    match cJSON_GetObjectItem u (chars "total_tokens") with
    | some tt =>
      if cJSON_IsNumber tt then
        { c2 with last_usage := { c2.last_usage with total_tokens := cJSON_valueint tt } }
      else c2
    | none => c2

/-- src/chatgpt.c `chatgpt_chat_complete` (lines 1154-1293) as a function of
the conversation and of what the single `curl_easy_perform` call observes:
clear the error state, send `build_request_body c false`, then on a
transport failure report HttpError; otherwise parse the body, report
ApiError on a top-level `error` member, require a non-empty `choices`
array, extract `choices[0].message.content`, cache it as `last_reply`,
record usage, and return the reply.  Note: the observed HTTP status is
never stored anywhere. -/
def chatgpt_chat_complete (c : ChatGPTConversation) (net : HttpOutcome) :
    Option (List Char) × ChatGPTConversation :=
  let c0 := chatgpt_clear_error c
  match net with
  | .neterr msg => (none, set_error c0 .CHATGPT_ERR_HTTP msg)
  | .reply _ body =>
    match cJSON_Parse body with
    | none => (none, set_error c0 .CHATGPT_ERR_JSON_PARSE (chars "Failed to parse response JSON"))
    | some root =>
      match cJSON_GetObjectItem root (chars "error") with
      | some e =>
        let msg :=
          match cJSON_GetObjectItem e (chars "message") with
          | some m => if cJSON_IsString m then cJSON_valuestring m else chars "API returned error"
          | none => chars "API returned error"
        (none, set_error c0 .CHATGPT_ERR_API msg)
      | none =>
        match cJSON_GetObjectItem root (chars "choices") with
        | none => (none, set_error c0 .CHATGPT_ERR_JSON_PARSE (chars "No choices in response"))
        | some ch =>
          if !cJSON_IsArray ch || cJSON_GetArraySize ch = 0 then
            (none, set_error c0 .CHATGPT_ERR_JSON_PARSE (chars "No choices in response"))
          else
            let m0 :=
              match cJSON_GetArrayItem ch 0 with
              | some x => cJSON_GetObjectItem x (chars "message")
              | none => none
            let cont :=
              match m0 with
              | some x => cJSON_GetObjectItem x (chars "content")
              | none => none
            match cont with
            | some ct =>
              if cJSON_IsString ct then
                let reply := cJSON_valuestring ct
                (some reply, apply_usage { c0 with last_reply := some reply } root)
              else
                (none, set_error c0 .CHATGPT_ERR_JSON_PARSE (chars "No content in response message"))
            | none =>
              (none, set_error c0 .CHATGPT_ERR_JSON_PARSE (chars "No content in response message"))

/-- The transport interaction of `chatgpt_chat_complete` spelled out against
a whole schedule of network outcomes: the outcome each successive attempt
would observe.  The function body (lines 1207-1221) contains exactly one
`curl_easy_perform` call and no loop, so only the first outcome is ever
consulted; `max_retries` and `retry_delay_ms` appear nowhere in it. -/
def chatgpt_chat_complete_attempts (c : ChatGPTConversation) (first : HttpOutcome)
    (later : List HttpOutcome) : Option (List Char) × ChatGPTConversation :=
  chatgpt_chat_complete c first

/-!
## The streaming exchange (stream_cb and chatgpt_chat_complete_stream)
-/

/-- src/chatgpt.c `struct stream_ctx` (lines 1325-1330).  The caller's sink
is modelled by the ordered log of the deltas it was invoked with; `acc` is
the accumulated buffer (`none` models the initial NULL pointer). -/
structure stream_ctx where
  events : List (List Char)
  acc : Option (List Char)
deriving DecidableEq

/-- The payload-to-delta extraction inside src/chatgpt.c `stream_cb`
(lines 1370-1398): parse the payload, require a non-empty `choices` array
whose first element has a string `delta.content`; anything else is skipped
silently. -/
def delta_of_payload (payload : List Char) : Option (List Char) :=
  match cJSON_Parse payload with
  | none => none
  | some root =>
    match cJSON_GetObjectItem root (chars "choices") with
    | none => none
    | some ch =>
      if cJSON_IsArray ch ∧ 0 < cJSON_GetArraySize ch then
        match cJSON_GetArrayItem ch 0 with
        | none => none
        | some c0 =>
          match cJSON_GetObjectItem c0 (chars "delta") with
          | none => none
          | some d =>
            match cJSON_GetObjectItem d (chars "content") with
            | some ct => if cJSON_IsString ct then some (cJSON_valuestring ct) else none
            | none => none
      else none

/-- The per-line-segment step of src/chatgpt.c `stream_cb` (lines 1350-1401):
a segment counts as a data line when it is longer than 5 bytes and starts
with `data:`; spaces after the tag are skipped; the `[DONE]` payload stops
the scan of the current call's buffer (the C code returns `tot`); a payload
carrying a delta invokes the sink once and appends to the accumulator. -/
def stream_line (ctx : stream_ctx) (seg : List Char) : stream_ctx × Bool :=
  if 5 < seg.length ∧ seg.take 5 = chars "data:" then
    let payload := (seg.drop 5).dropWhile (fun c => c = ' ')
    if payload = chars "[DONE]" then (ctx, true)
    else
      match delta_of_payload payload with
      | some d => ({ events := ctx.events ++ [d], acc := some (ctx.acc.getD [] ++ d) }, false)
      | none => (ctx, false)
  else (ctx, false)

/-- The first line segment of a buffer (up to a newline, or the whole
buffer), and what follows the newline when there is one. -/
def split_line : List Char → List Char × Option (List Char)
  | [] => ([], none)
  | c :: cs =>
    if c = '\n' then ([], some cs)
    else
      let p := split_line cs
      (c :: p.1, p.2)

/-- The scan loop of src/chatgpt.c `stream_cb` (lines 1343-1405): process
newline-delimited segments of this one delivery buffer left to right —
including a final segment with NO newline terminator, which the C loop
processes just like any other line (`j` stops at `tot`).  Nothing is carried
over to the next invocation.  The fuel argument only serves termination;
the wrapper supplies more than the buffer can consume. -/
def stream_scan : Nat → stream_ctx → List Char → stream_ctx
  | 0, ctx, _ => ctx
  | f + 1, ctx, data =>
    let p := split_line data
    let s := stream_line ctx p.1
    if s.2 then s.1
    else
      match p.2 with
      | none => s.1
      | some tail => stream_scan f s.1 tail

/-- src/chatgpt.c `stream_cb` (lines 1338-1408): one curl delivery callback. -/
def stream_cb (ctx : stream_ctx) (chunk : List Char) : stream_ctx :=
  stream_scan (chunk.length + 1) ctx chunk

/-- What the single streaming `curl_easy_perform` observes: the byte chunks
delivered to `stream_cb` (at transport-chosen boundaries), followed by
either clean completion or a transport failure with curl's description. -/
inductive StreamOutcome where
  | ok : List (List Char) → StreamOutcome
  | fail : List (List Char) → List Char → StreamOutcome

/-- The observable result of `chatgpt_chat_complete_stream`: the returned
code, what was stored through `full_response_out` (`none` when the pointer
was NULL or the call failed before the store), the sink invocation log, and
the conversation afterwards. -/
structure StreamCallResult where
  ret : ChatGPT_ErrorCode
  full_out : Option (Option (List Char))
  events : List (List Char)
  conv : ChatGPTConversation
deriving DecidableEq

/-- src/chatgpt.c `chatgpt_chat_complete_stream` (lines 1428-1508) as a
function of the conversation, of whether the caller passed a non-NULL
`full_response_out`, and of what the transport delivers: clear the error
state, send `build_request_body c true`, feed every delivered chunk through
`stream_cb`; on a transport failure free the accumulator (discarding the
partial text), set StreamError and return it; on success hand the
accumulator to the caller and cache an independent copy as `last_reply` —
but only when `full_response_out` was supplied; with a NULL `full_out` the
accumulator is simply freed and `last_reply` stays untouched. -/
def chatgpt_chat_complete_stream (c : ChatGPTConversation) (full_out_given : Bool)
    (net : StreamOutcome) : StreamCallResult :=
  let c0 := chatgpt_clear_error c
  match net with
  | .fail chunks msg =>
    let ctx := chunks.foldl stream_cb { events := [], acc := none }
    { ret := .CHATGPT_ERR_STREAM, full_out := none, events := ctx.events,
      conv := set_error c0 .CHATGPT_ERR_STREAM msg }
  | .ok chunks =>
    let ctx := chunks.foldl stream_cb { events := [], acc := none }
    if full_out_given then
      { ret := .CHATGPT_OK, full_out := some ctx.acc, events := ctx.events,
        conv := { c0 with last_reply := ctx.acc } }
    else
      { ret := .CHATGPT_OK, full_out := none, events := ctx.events, conv := c0 }

/-- The transport interaction of `chatgpt_chat_complete_stream` against a
whole schedule of outcomes, one per attempt the retry policy would make:
the body (lines 1481-1494) performs exactly one `curl_easy_perform` and has
no retry loop, so only the first outcome is ever consulted. -/
def chatgpt_chat_complete_stream_attempts (c : ChatGPTConversation) (full_out_given : Bool)
    (first : StreamOutcome) (later : List StreamOutcome) : StreamCallResult :=
  chatgpt_chat_complete_stream c full_out_given first

/-!
## Concrete scenario inputs
-/

/-- A freshly constructed conversation. -/
def demo_conv : ChatGPTConversation := chatgpt_conversation_new (chars "key") none

/-- The windowing scenario: a new conversation with `contextMessages` set
to 1 and the four messages system "sys", user "hi", assistant "yo",
user "now" added in order. -/
def conv_c1 : ChatGPTConversation :=
  (chatgpt_add_user
    ((chatgpt_add_assistant
      ((chatgpt_add_user
        ((chatgpt_add_system
          ((chatgpt_set_context_messages demo_conv 1).2)
          (chars "sys")).2)
        (chars "hi")).2)
      (chars "yo")).2)
    (chars "now")).2

/-- One complete event-stream data line carrying the delta "Hel" (without
its newline terminator). -/
def c2_line : List Char :=
  chars "data: \x7b\"choices\":[\x7b\"delta\":\x7b\"content\":\"Hel\"\x7d\x7d]\x7d"

/-- The same line cut just before its final closing brace: everything a
first delivery chunk would carry. -/
def c2_chunk1 : List Char := c2_line.dropLast

/-- The remainder: the closing brace and the line's newline terminator,
arriving as the second delivery chunk. -/
def c2_chunk2 : List Char := chars "\x7d\n"

/-- A well-formed non-streaming success body whose reply text is "ok". -/
def c3_good_body : List Char :=
  chars "\x7b\"choices\":[\x7b\"message\":\x7b\"content\":\"ok\"\x7d\x7d]\x7d"

/-- A response body holding BOTH a top-level `error` object and a
well-formed non-empty `choices` array. -/
def c6_body : List Char :=
  chars "\x7b\"error\":\x7b\"message\":\"rate limited\"\x7d,\"choices\":[\x7b\"message\":\x7b\"content\":\"hi\"\x7d\x7d]\x7d"

/-- The document `c6_body` parses to. -/
def c6_root : JVal :=
  .jobj [(chars "error", .jobj [(chars "message", .jstr (chars "rate limited"))]),
         (chars "choices",
          .jarr [.jobj [(chars "message", .jobj [(chars "content", .jstr (chars "hi"))])]])]

/-- The `error` member of `c6_root`. -/
def c6_err : JVal := .jobj [(chars "message", .jstr (chars "rate limited"))]

/-- A conversation with a previously cached reply "old". -/
def conv_c4 : ChatGPTConversation := { demo_conv with last_reply := some (chars "old") }

/-!
## Helper lemmas
-/

/-- `set_error` never touches the HTTP-status field. -/
theorem set_error_last_http_code (c : ChatGPTConversation) (k : ChatGPT_ErrorCode)
    (m : List Char) : (set_error c k m).last_http_code = c.last_http_code := rfl

/-- `apply_usage` only updates the usage counters. -/
theorem apply_usage_last_http_code (c : ChatGPTConversation) (root : JVal) :
    (apply_usage c root).last_http_code = c.last_http_code := by
  unfold apply_usage
  dsimp only
  repeat' split <;> try rfl

/-- A line step either leaves the context alone or appends one delta to
both the sink log and the accumulator. -/
theorem stream_line_shape (ctx : stream_ctx) (seg : List Char) :
    (stream_line ctx seg).1 = ctx
    ∨ ∃ d, (stream_line ctx seg).1
        = { events := ctx.events ++ [d], acc := some (ctx.acc.getD [] ++ d) } := by
  unfold stream_line
  dsimp only
  split
  · split
    · exact Or.inl rfl
    · split
      · exact Or.inr ⟨_, rfl⟩
      · exact Or.inl rfl
  · exact Or.inl rfl

/-- One line step keeps the accumulator equal to the concatenation of the
sink log. -/
theorem stream_line_acc (ctx : stream_ctx) (seg : List Char)
    (h : ctx.acc = if ctx.events = [] then none else some ctx.events.flatten) :
    (stream_line ctx seg).1.acc
      = if (stream_line ctx seg).1.events = [] then none
        else some (stream_line ctx seg).1.events.flatten := by
  rcases stream_line_shape ctx seg with hc | ⟨d, hc⟩
  · rw [hc]; exact h
  · rw [hc]
    rcases hev : ctx.events with _ | ⟨e, es⟩ <;> simp_all [List.flatten_append]

/-- The chunk scan keeps the accumulator equal to the concatenation of the
sink log. -/
theorem stream_scan_acc : ∀ (f : Nat) (ctx : stream_ctx) (data : List Char),
    ctx.acc = (if ctx.events = [] then none else some ctx.events.flatten) →
    (stream_scan f ctx data).acc
      = if (stream_scan f ctx data).events = [] then none
        else some (stream_scan f ctx data).events.flatten
  | 0, ctx, _, h => h
  | f + 1, ctx, data, h => by
    have h1 := stream_line_acc ctx (split_line data).1 h
    unfold stream_scan
    dsimp only
    split
    · exact h1
    · split
      · exact h1
      · exact stream_scan_acc f _ _ h1

/-- Folding deliveries through `stream_cb` keeps the accumulator equal to
the concatenation of the sink log. -/
theorem stream_foldl_acc : ∀ (chunks : List (List Char)) (ctx : stream_ctx),
    ctx.acc = (if ctx.events = [] then none else some ctx.events.flatten) →
    (chunks.foldl stream_cb ctx).acc
      = if (chunks.foldl stream_cb ctx).events = [] then none
        else some (chunks.foldl stream_cb ctx).events.flatten
  | [], _, h => h
  | chunk :: rest, ctx, h =>
    stream_foldl_acc rest (stream_cb ctx chunk) (stream_scan_acc _ ctx chunk h)

/-!
## The claims
-/

/-- C1: the claim says the request body carries only the windowed message
set (the last `contextMessages` messages, or just the most recent one when
it is 0).  The code does not: `build_request_body` serializes the WHOLE
message list for every conversation, and on the spec's own scenario
(`contextMessages = 1` with four messages) the built request's `messages`
array holds all four entries instead of the single `{"user","now"}` entry
the claim requires. -/
theorem C1_request_body_never_windowed :
    (∀ (c : ChatGPTConversation) (stream : Bool),
      cJSON_GetObjectItem (request_body_json c stream) (chars "messages")
        = some (.jarr (c.messages.map msg_json)))
    ∧ conv_c1.context_messages = 1
    ∧ cJSON_GetObjectItem (request_body_json conv_c1 false) (chars "messages")
        = some (.jarr [msg_json { role := chars "system", content := chars "sys" },
                       msg_json { role := chars "user", content := chars "hi" },
                       msg_json { role := chars "assistant", content := chars "yo" },
                       msg_json { role := chars "user", content := chars "now" }]) := by
  have h1 : chars "model" ≠ chars "messages" := by decide
  refine ⟨fun c stream => ?_, rfl, rfl⟩
  simp [request_body_json, cJSON_GetObjectItem, find_member, h1]

/-- C2: the claim says a logical line spanning two chunks is carried over
and processed once its terminator arrives, and an unterminated final line
is discarded.  The code keeps no carry-over buffer: the very same bytes
that produce one sink call "Hel" when delivered in one chunk produce NO
sink call when split across two chunks, and a final line without a newline
terminator is processed immediately rather than discarded. -/
theorem C2_decoder_is_chunk_unaware :
    (stream_cb { events := [], acc := none } (c2_line ++ chars "\n")).events = [chars "Hel"]
    ∧ (stream_cb (stream_cb { events := [], acc := none } c2_chunk1) c2_chunk2).events = []
    ∧ (stream_cb { events := [], acc := none } c2_line).events = [chars "Hel"] :=
  ⟨rfl, rfl, rfl⟩

/-- C3: the claim says retryable failures are retried up to `maxRetries`
times with a pause between attempts.  Neither completion path contains a
retry: the result never depends on any outcome after the first, and on a
fresh conversation (whose retry configuration is the default 3 attempts
with a 1000 ms delay) one network failure makes the call report HttpError
even though the very next attempt would have succeeded with reply "ok". -/
theorem C3_no_retry_is_ever_made :
    (∀ (c : ChatGPTConversation) (first : HttpOutcome) (l l2 : List HttpOutcome),
      chatgpt_chat_complete_attempts c first l = chatgpt_chat_complete_attempts c first l2)
    ∧ (∀ (c : ChatGPTConversation) (fo : Bool) (first : StreamOutcome)
        (l l2 : List StreamOutcome),
      chatgpt_chat_complete_stream_attempts c fo first l
        = chatgpt_chat_complete_stream_attempts c fo first l2)
    ∧ demo_conv.max_retries = 3
    ∧ demo_conv.retry_delay_ms = 1000
    ∧ (chatgpt_chat_complete_attempts demo_conv (.neterr (chars "connect timeout"))
        [.reply 200 c3_good_body]).1 = none
    ∧ (chatgpt_chat_complete_attempts demo_conv (.neterr (chars "connect timeout"))
        [.reply 200 c3_good_body]).2.last_code = .CHATGPT_ERR_HTTP
    ∧ (chatgpt_chat_complete demo_conv (.reply 200 c3_good_body)).1 = some (chars "ok") :=
  ⟨fun _ _ _ _ => rfl, fun _ _ _ _ _ => rfl, rfl, rfl, rfl, rfl, rfl⟩

/-- C5: the claim says a buffered exchange records the response's HTTP
status so that `chatgpt_last_http_code` afterwards returns it (e.g. 429).
The code clears the field at the start of the call and never writes the
observed status anywhere, so after every buffered completion the accessor
returns 0 — including after a 429 rate-limit response. -/
theorem C5_http_status_never_recorded :
    (∀ (c : ChatGPTConversation) (net : HttpOutcome),
      chatgpt_last_http_code (chatgpt_chat_complete c net).2 = 0)
    ∧ chatgpt_last_http_code (chatgpt_chat_complete demo_conv (.reply 429 c6_body)).2 = 0 := by
  refine ⟨fun c net => ?_, rfl⟩
  cases net with
  | neterr msg => rfl
  | reply st body =>
    simp only [chatgpt_chat_complete, chatgpt_last_http_code]
    repeat' split
    all_goals first
      | rfl
      | (rw [apply_usage_last_http_code]; rfl)

/-- C6: a parsed response document with a top-level `error` member always
makes the buffered completion fail with ApiError — even when a well-formed
`choices` array is also present — and the stored message is the error's
`message` field when it is present as a string, a generic message
otherwise (truncated to the error buffer). -/
theorem C6_error_object_always_wins :
    ∀ (c : ChatGPTConversation) (status : Int) (body : List Char) (root e : JVal),
      cJSON_Parse body = some root →
      cJSON_GetObjectItem root (chars "error") = some e →
      (chatgpt_chat_complete c (.reply status body)).1 = none
      ∧ (chatgpt_chat_complete c (.reply status body)).2.last_code = .CHATGPT_ERR_API
      ∧ (chatgpt_chat_complete c (.reply status body)).2.last_error
          = (match cJSON_GetObjectItem e (chars "message") with
             | some m => if cJSON_IsString m then cJSON_valuestring m
                         else chars "API returned error"
             | none => chars "API returned error").take 511 := by
  intro c status body root e hp he
  refine ⟨?_, ?_, ?_⟩ <;> simp only [chatgpt_chat_complete, hp, he] <;> rfl

/-- C6 witness: a concrete body holding both a top-level `error` object and
a well-formed non-empty `choices` array yields ApiError with the error's
message. -/
theorem C6_witness :
    cJSON_Parse c6_body = some c6_root
    ∧ cJSON_GetObjectItem c6_root (chars "error") = some c6_err
    ∧ (chatgpt_chat_complete demo_conv (.reply 200 c6_body)).1 = none
    ∧ (chatgpt_chat_complete demo_conv (.reply 200 c6_body)).2.last_code = .CHATGPT_ERR_API
    ∧ (chatgpt_chat_complete demo_conv (.reply 200 c6_body)).2.last_error
        = (match cJSON_GetObjectItem c6_err (chars "message") with
           | some m => if cJSON_IsString m then cJSON_valuestring m
                       else chars "API returned error"
           | none => chars "API returned error").take 511 :=
  ⟨rfl, rfl,
   (C6_error_object_always_wins demo_conv 200 c6_body c6_root c6_err rfl rfl).1,
   (C6_error_object_always_wins demo_conv 200 c6_body c6_root c6_err rfl rfl).2.1,
   (C6_error_object_always_wins demo_conv 200 c6_body c6_root c6_err rfl rfl).2.2⟩

/-- C8: when the streaming transport fails mid-stream, the call reports
StreamError, nothing is stored through `full_response_out`, the partial
accumulated text is discarded (the cached `lastReply` is untouched), and
the conversation keeps its message list — it only carries the new error
triple. -/
theorem C8_midstream_failure_discards_partial_text :
    ∀ (c : ChatGPTConversation) (fo : Bool) (chunks : List (List Char)) (msg : List Char),
      (chatgpt_chat_complete_stream c fo (.fail chunks msg)).ret = .CHATGPT_ERR_STREAM
      ∧ (chatgpt_chat_complete_stream c fo (.fail chunks msg)).full_out = none
      ∧ (chatgpt_chat_complete_stream c fo (.fail chunks msg)).conv.last_reply = c.last_reply
      ∧ (chatgpt_chat_complete_stream c fo (.fail chunks msg)).conv.messages = c.messages
      ∧ (chatgpt_chat_complete_stream c fo (.fail chunks msg)).conv.last_code
          = .CHATGPT_ERR_STREAM
      ∧ (chatgpt_chat_complete_stream c fo (.fail chunks msg)).conv
          = set_error (chatgpt_clear_error c) .CHATGPT_ERR_STREAM msg :=
  fun _ _ _ _ => ⟨rfl, rfl, rfl, rfl, rfl, rfl⟩

/-- C4 counterexample: a successful stream that accumulated "Hel", called
with a NULL `full_response_out`, leaves the previously cached `lastReply`
("old") in place — the claim's "regardless of whether the caller supplied
a full_response_out destination" is false on the code. -/
theorem C4_counterexample_null_out_not_cached :
    (chatgpt_chat_complete_stream conv_c4 false (.ok [c2_line ++ chars "\n"])).ret
        = .CHATGPT_OK
    ∧ (chatgpt_chat_complete_stream conv_c4 false (.ok [c2_line ++ chars "\n"])).events
        = [chars "Hel"]
    ∧ (chatgpt_chat_complete_stream conv_c4 false (.ok [c2_line ++ chars "\n"])).conv.last_reply
        = some (chars "old")
    ∧ (chatgpt_chat_complete_stream conv_c4 false (.ok [c2_line ++ chars "\n"])).conv.last_reply
        ≠ some (chars "Hel") :=
  ⟨rfl, rfl, rfl, by decide⟩

/-- C4 as amended: on successful stream completion the accumulated text —
the concatenation of all emitted deltas in arrival order — is handed to the
caller and an independent copy is cached as `lastReply` WHEN the caller
supplied a `full_response_out` destination; when the caller passed NULL,
the accumulator is freed and `lastReply` is left unchanged. -/
theorem C4_amended_lastreply_cached_only_with_out :
    ∀ (c : ChatGPTConversation) (chunks : List (List Char)),
      (chatgpt_chat_complete_stream c true (.ok chunks)).full_out
          = some (chunks.foldl stream_cb { events := [], acc := none }).acc
      ∧ (chatgpt_chat_complete_stream c true (.ok chunks)).conv.last_reply
          = (chunks.foldl stream_cb { events := [], acc := none }).acc
      ∧ (chatgpt_chat_complete_stream c false (.ok chunks)).full_out = none
      ∧ (chatgpt_chat_complete_stream c false (.ok chunks)).conv.last_reply = c.last_reply
      ∧ (chunks.foldl stream_cb { events := [], acc := none }).acc
          = (if (chunks.foldl stream_cb { events := [], acc := none }).events = [] then none
             else some (chunks.foldl stream_cb { events := [], acc := none }).events.flatten) :=
  fun _ chunks => ⟨rfl, rfl, rfl, rfl, stream_foldl_acc chunks _ (by simp)⟩

/-- C9: setting a negative `maxTokens` is rejected with InvalidArgument and
the whole conversation — in particular the previously stored value — is
left unchanged. -/
theorem C9_negative_max_tokens_rejected :
    ∀ (c : ChatGPTConversation) (n : Int), n < 0 →
      chatgpt_set_max_tokens c n = (.CHATGPT_ERR_INVALID_ARG, c) := by
  intro c n h
  simp [chatgpt_set_max_tokens, h]

/-- C9 witness: on a conversation whose stored `maxTokens` is 42, setting
-7 returns InvalidArgument and keeps the conversation (with its 42) as it
was. -/
theorem C9_witness :
    ((-7 : Int) < 0)
    ∧ chatgpt_set_max_tokens { demo_conv with max_tokens := 42 } (-7)
        = (.CHATGPT_ERR_INVALID_ARG, { demo_conv with max_tokens := 42 }) :=
  ⟨by decide, C9_negative_max_tokens_rejected { demo_conv with max_tokens := 42 } (-7) (by decide)⟩

/-- C10: when the file cannot be read, or its contents fail to parse, or
the parsed document is not an array, loading returns an error and the
conversation — messages included — is left completely unchanged. -/
theorem C10_failed_load_changes_nothing :
    ∀ (c : ChatGPTConversation) (contents : Option (List Char)),
      (contents = none
        ∨ (∃ buf, contents = some buf ∧ cJSON_Parse buf = none)
        ∨ (∃ buf root, contents = some buf ∧ cJSON_Parse buf = some root
            ∧ cJSON_IsArray root = false)) →
      (chatgpt_load_conversation c contents).1 ≠ .CHATGPT_OK
      ∧ (chatgpt_load_conversation c contents).2 = c := by
  intro c contents h
  rcases h with rfl | ⟨buf, rfl, hp⟩ | ⟨buf, root, rfl, hp, hna⟩
  · refine ⟨?_, rfl⟩
    intro hcon
    simp [chatgpt_load_conversation] at hcon
  · refine ⟨?_, ?_⟩ <;> simp [chatgpt_load_conversation, hp]
  · cases root <;> simp_all [chatgpt_load_conversation, cJSON_IsArray]

/-- C10 witness: loading the unparsable contents "not json" into the
populated scenario conversation fails and leaves it untouched. -/
theorem C10_witness :
    (some (chars "not json") = (none : Option (List Char))
      ∨ (∃ buf, some (chars "not json") = some buf ∧ cJSON_Parse buf = none)
      ∨ (∃ buf root, some (chars "not json") = some buf ∧ cJSON_Parse buf = some root
          ∧ cJSON_IsArray root = false))
    ∧ (chatgpt_load_conversation conv_c1 (some (chars "not json"))).1 ≠ .CHATGPT_OK
    ∧ (chatgpt_load_conversation conv_c1 (some (chars "not json"))).2 = conv_c1 :=
  ⟨Or.inr (Or.inl ⟨chars "not json", rfl, rfl⟩),
   (C10_failed_load_changes_nothing conv_c1 (some (chars "not json"))
     (Or.inr (Or.inl ⟨chars "not json", rfl, rfl⟩))).1,
   (C10_failed_load_changes_nothing conv_c1 (some (chars "not json"))
     (Or.inr (Or.inl ⟨chars "not json", rfl, rfl⟩))).2⟩

/-!
## The save/load round trip (C7)

The chain below proves that reading back the printed message array
recovers it exactly: first that unescaping inverts escaping character by
character, then that a printed string parses back, then the same for one
`{role, content}` object, for a printed array of them, and finally for the
whole persisted document.
-/

/-- `skip_ws` does nothing on a buffer that starts with a non-whitespace
character. -/
theorem skip_ws_cons (c : Char) (cs : List Char) (h : json_ws c = false) :
    skip_ws (c :: cs) = c :: cs := by
  rw [skip_ws.eq_def]
  simp [h]

/-- Reading the closing quote of a string body returns the accumulator. -/
theorem parse_str_body_quote (acc rest : List Char) :
    parse_str_body ('"' :: rest) acc = some (acc.reverse, rest) := by
  rw [parse_str_body.eq_def]
  simp

/-- Reading a named escape pushes the character it stands for. -/
theorem parse_str_body_esc (e ch : Char) (h : esc_unquote e = some ch) (hu : ¬e = 'u')
    (acc rest : List Char) :
    parse_str_body ('\\' :: e :: rest) acc = parse_str_body rest (ch :: acc) := by
  rw [parse_str_body.eq_def]
  simp [h, hu]

/-- Reading an unescaped character pushes it unchanged. -/
theorem parse_str_body_plain (c : Char) (h1 : ¬c = '"') (h2 : ¬c = '\\')
    (h3 : ¬c.toNat = 0) (acc rest : List Char) :
    parse_str_body (c :: rest) acc = parse_str_body rest (c :: acc) := by
  rw [parse_str_body.eq_def]
  simp [h1, h2, h3]

/-- Reading back a printed hex digit recovers its value. -/
theorem hex_digit_val_hex_char (k : Nat) (h : k < 16) :
    hex_digit_val (hex_char k) = some k := by
  interval_cases k <;> decide

/-- Reading a `\u00XY` escape pushes the encoded character. -/
theorem parse_u_escape (hi lo : Nat) (hhi : hi < 16) (hlo : lo < 16)
    (acc rest : List Char) :
    parse_str_body ('\\' :: 'u' :: '0' :: '0' :: hex_char hi :: hex_char lo :: rest) acc
      = parse_str_body rest (Char.ofNat (hi * 16 + lo) :: acc) := by
  have h1 := hex_digit_val_hex_char hi hhi
  have h2 := hex_digit_val_hex_char lo hlo
  have h0 : hex_digit_val '0' = some 0 := by decide
  have h4 : valid_scalar (hi * 16 + lo) = true := by
    unfold valid_scalar
    rw [if_pos (by omega)]
  rw [parse_str_body.eq_def]
  simp [h0, h1, h2, h4]

/-- Reading back one escaped character pushes exactly that character. -/
theorem parse_esc_char (ch : Char) (acc rest : List Char) :
    parse_str_body (esc_char ch ++ rest) acc = parse_str_body rest (ch :: acc) := by
  by_cases h1 : ch = '"'
  · subst h1
    rw [show esc_char '"' = ['\\', '"'] from rfl, List.cons_append, List.cons_append,
        List.nil_append, parse_str_body_esc '"' '"' (by decide) (by decide)]
  by_cases h2 : ch = '\\'
  · subst h2
    rw [show esc_char '\\' = ['\\', '\\'] from rfl, List.cons_append, List.cons_append,
        List.nil_append, parse_str_body_esc '\\' '\\' (by decide) (by decide)]
  by_cases h3 : ch = Char.ofNat 8
  · subst h3
    rw [show esc_char (Char.ofNat 8) = ['\\', 'b'] from rfl, List.cons_append,
        List.cons_append, List.nil_append,
        parse_str_body_esc 'b' (Char.ofNat 8) (by decide) (by decide)]
  by_cases h4 : ch = Char.ofNat 12
  · subst h4
    rw [show esc_char (Char.ofNat 12) = ['\\', 'f'] from rfl, List.cons_append,
        List.cons_append, List.nil_append,
        parse_str_body_esc 'f' (Char.ofNat 12) (by decide) (by decide)]
  by_cases h5 : ch = '\n'
  · subst h5
    rw [show esc_char '\n' = ['\\', 'n'] from rfl, List.cons_append, List.cons_append,
        List.nil_append, parse_str_body_esc 'n' '\n' (by decide) (by decide)]
  by_cases h6 : ch = '\r'
  · subst h6
    rw [show esc_char '\r' = ['\\', 'r'] from rfl, List.cons_append, List.cons_append,
        List.nil_append, parse_str_body_esc 'r' '\r' (by decide) (by decide)]
  by_cases h7 : ch = '\t'
  · subst h7
    rw [show esc_char '\t' = ['\\', 't'] from rfl, List.cons_append, List.cons_append,
        List.nil_append, parse_str_body_esc 't' '\t' (by decide) (by decide)]
  by_cases h8 : ch.toNat < 32
  · rw [show esc_char ch
        = ['\\', 'u', '0', '0', hex_char (ch.toNat / 16), hex_char (ch.toNat % 16)] from by
      unfold esc_char
      rw [if_neg h1, if_neg h2, if_neg h3, if_neg h4, if_neg h5, if_neg h6, if_neg h7,
          if_pos h8]]
    have hu := parse_u_escape (ch.toNat / 16) (ch.toNat % 16) (by omega)
      (Nat.mod_lt _ (by omega)) acc rest
    simp only [List.cons_append, List.nil_append] at hu ⊢
    rw [hu, show ch.toNat / 16 * 16 + ch.toNat % 16 = ch.toNat from by omega,
        Char.ofNat_toNat]
  · rw [show esc_char ch = [ch] from by
      unfold esc_char
      rw [if_neg h1, if_neg h2, if_neg h3, if_neg h4, if_neg h5, if_neg h6, if_neg h7,
          if_neg h8]]
    rw [List.cons_append, List.nil_append,
        parse_str_body_plain ch h1 h2 (by omega)]

/-- Reading back a printed string body recovers it and stops right after
the closing quote. -/
theorem parse_str_emitted (s : List Char) : ∀ (acc rest : List Char),
    parse_str_body (s.flatMap esc_char ++ ('"' :: rest)) acc
      = some (acc.reverse ++ s, rest) := by
  induction s with
  | nil =>
    intro acc rest
    rw [List.flatMap_nil, List.nil_append, parse_str_body_quote]
    simp
  | cons c tl ih =>
    intro acc rest
    rw [List.flatMap_cons, List.append_assoc, parse_esc_char, ih]
    simp

/-- One unfolding of the value reader on a string head. -/
theorem parse_value_step_str (f : Nat) (tl : List Char) :
    parse_value (f + 1) ('"' :: tl)
      = (match parse_str_body tl [] with
         | some p => some (.jstr p.1, p.2)
         | none => none) := by
  rw [parse_value.eq_def]
  dsimp only
  rw [skip_ws_cons _ _ (by decide)]
  rfl

/-- One unfolding of the value reader on an object head whose first member
key opens immediately. -/
theorem parse_value_step_obj (f : Nat) (tl : List Char) :
    parse_value (f + 1) ('{' :: ('"' :: tl))
      = (match parse_fields f ('"' :: tl) with
         | some p => some (.jobj p.1, p.2)
         | none => none) := by
  rw [parse_value.eq_def]
  dsimp only
  rw [skip_ws_cons _ _ (by decide)]
  rfl

/-- One unfolding of the value reader on an array head whose first element
is an object. -/
theorem parse_value_step_arr (f : Nat) (tl : List Char) :
    parse_value (f + 1) ('[' :: ('{' :: tl))
      = (match parse_items f ('{' :: tl) with
         | some p => some (.jarr p.1, p.2)
         | none => none) := by
  rw [parse_value.eq_def]
  dsimp only
  rw [skip_ws_cons _ _ (by decide)]
  rfl

/-- One unfolding of the element reader. -/
theorem parse_items_step (f : Nat) (tl : List Char) :
    parse_items (f + 1) tl
      = (match parse_value f tl with
         | none => none
         | some (v, r) =>
           match skip_ws r with
           | ',' :: r2 =>
             match parse_items f r2 with
             | some p => some (v :: p.1, p.2)
             | none => none
           | ']' :: r2 => some ([v], r2)
           | _ => none) := by
  rw [parse_items.eq_def]

/-- One unfolding of the member reader on a key's opening quote. -/
theorem parse_fields_step (f : Nat) (tl : List Char) :
    parse_fields (f + 1) ('"' :: tl)
      = (match parse_str_body tl [] with
         | none => none
         | some (key, r1) =>
           match skip_ws r1 with
           | ':' :: r2 =>
             match parse_value f r2 with
             | none => none
             | some (v, r3) =>
               match skip_ws r3 with
               | ',' :: r4 =>
                 match parse_fields f r4 with
                 | some p => some ((key, v) :: p.1, p.2)
                 | none => none
               | '}' :: r4 => some ([(key, v)], r4)
               | _ => none
           | _ => none) := by
  rw [parse_fields.eq_def]
  dsimp only
  rw [skip_ws_cons _ _ (by decide)]
  rfl

/-- Reading back a printed string value. -/
theorem parse_value_emit_str (f : Nat) (s rest : List Char) :
    parse_value (f + 1) (emit_str s ++ rest) = some (.jstr s, rest) := by
  rw [show emit_str s ++ rest = '"' :: (s.flatMap esc_char ++ ('"' :: rest)) from by
    simp [emit_str]]
  rw [parse_value_step_str, parse_str_emitted]
  simp

/-- Reading back a final printed `"key":"value"` member before the closing
brace. -/
theorem parse_fields_emit_last (f : Nat) (key s rest : List Char) :
    parse_fields (f + 2) (emit_str key ++ (':' :: (emit_str s ++ ('}' :: rest))))
      = some ([(key, .jstr s)], rest) := by
  rw [show emit_str key ++ (':' :: (emit_str s ++ ('}' :: rest)))
      = '"' :: (key.flatMap esc_char ++ ('"' :: (':' :: (emit_str s ++ ('}' :: rest)))))
    from by simp [emit_str]]
  rw [parse_fields_step, parse_str_emitted]
  simp only [List.reverse_nil, List.nil_append]
  rw [skip_ws_cons _ _ (by decide)]
  simp only []
  rw [parse_value_emit_str f s ('}' :: rest)]
  simp only []
  rw [skip_ws_cons _ _ (by decide)]
  simp only []

/-- Reading back a printed `"key":"value"` member followed by a comma and
already-readable remaining members. -/
theorem parse_fields_emit_cons (f : Nat) (key s tl : List Char)
    (ms : List (List Char × JVal)) (r : List Char)
    (h : parse_fields (f + 1) tl = some (ms, r)) :
    parse_fields (f + 2) (emit_str key ++ (':' :: (emit_str s ++ (',' :: tl))))
      = some ((key, .jstr s) :: ms, r) := by
  rw [show emit_str key ++ (':' :: (emit_str s ++ (',' :: tl)))
      = '"' :: (key.flatMap esc_char ++ ('"' :: (':' :: (emit_str s ++ (',' :: tl)))))
    from by simp [emit_str]]
  rw [parse_fields_step, parse_str_emitted]
  simp only [List.reverse_nil, List.nil_append]
  rw [skip_ws_cons _ _ (by decide)]
  simp only []
  rw [parse_value_emit_str f s (',' :: tl)]
  simp only []
  rw [skip_ws_cons _ _ (by decide)]
  simp only []
  rw [h]

/-- Reading back one printed `{role, content}` message object. -/
theorem parse_value_emit_msg (f : Nat) (m : ChatGPTMessage) (rest : List Char) :
    parse_value (f + 4) (emit (msg_json m) ++ rest) = some (msg_json m, rest) := by
  have hfields : emit_fields [(chars "role", .jstr m.role), (chars "content", .jstr m.content)]
      = emit_str (chars "role") ++ (':' :: (emit_str m.role
          ++ (',' :: (emit_str (chars "content") ++ (':' :: emit_str m.content))))) := by
    rw [emit_fields.eq_def]
    dsimp only
    rw [emit_fields.eq_def]
    dsimp only
    rw [emit.eq_def, emit.eq_def]
    simp
  have hobj : emit (msg_json m) ++ rest
      = '{' :: ('"' :: ((chars "role").flatMap esc_char
          ++ ('"' :: (':' :: (emit_str m.role
          ++ (',' :: (emit_str (chars "content")
          ++ (':' :: (emit_str m.content ++ ('}' :: rest)))))))))) := by
    rw [show msg_json m
        = .jobj [(chars "role", .jstr m.role), (chars "content", .jstr m.content)] from rfl]
    rw [emit.eq_def]
    dsimp only
    rw [hfields]
    simp [emit_str]
  rw [hobj, show (f + 4) = (f + 3) + 1 from rfl, parse_value_step_obj]
  have hlast := parse_fields_emit_last f (chars "content") m.content rest
  have hcons := parse_fields_emit_cons (f + 1) (chars "role") m.role
    (emit_str (chars "content") ++ (':' :: (emit_str m.content ++ ('}' :: rest))))
    [(chars "content", .jstr m.content)] rest hlast
  rw [show '"' :: ((chars "role").flatMap esc_char
        ++ ('"' :: (':' :: (emit_str m.role
        ++ (',' :: (emit_str (chars "content")
        ++ (':' :: (emit_str m.content ++ ('}' :: rest)))))))))
      = emit_str (chars "role") ++ (':' :: (emit_str m.role
          ++ (',' :: (emit_str (chars "content")
          ++ (':' :: (emit_str m.content ++ ('}' :: rest))))))) from by simp [emit_str]]
  rw [show (f + 3) = (f + 1) + 2 from rfl, hcons]
  rfl

/-- The printer puts an opening brace first on every message object. -/
theorem emit_msg_head (m : ChatGPTMessage) (x : List Char) :
    emit (msg_json m) ++ x
      = '{' :: ((emit_fields [(chars "role", .jstr m.role),
          (chars "content", .jstr m.content)] ++ ['}']) ++ x) := by
  rw [show msg_json m
      = .jobj [(chars "role", .jstr m.role), (chars "content", .jstr m.content)] from rfl]
  rw [emit.eq_def]
  simp

/-- Reading back the last printed message element before the closing
bracket. -/
theorem parse_items_emit_last (f : Nat) (m : ChatGPTMessage) (rest : List Char) :
    parse_items (f + 5) (emit (msg_json m) ++ (']' :: rest))
      = some ([msg_json m], rest) := by
  rw [show (f + 5) = (f + 4) + 1 from rfl, parse_items_step,
      parse_value_emit_msg f m (']' :: rest)]
  simp only []
  rw [skip_ws_cons _ _ (by decide)]
  simp only []

/-- Reading back a printed message element followed by a comma and
already-readable remaining elements. -/
theorem parse_items_emit_cons (f : Nat) (m : ChatGPTMessage) (tl : List Char)
    (vs : List JVal) (r : List Char) (h : parse_items (f + 4) tl = some (vs, r)) :
    parse_items (f + 5) (emit (msg_json m) ++ (',' :: tl))
      = some (msg_json m :: vs, r) := by
  rw [show (f + 5) = (f + 4) + 1 from rfl, parse_items_step,
      parse_value_emit_msg f m (',' :: tl)]
  simp only []
  rw [skip_ws_cons _ _ (by decide)]
  simp only []
  rw [h]

/-- Reading back the printed elements of a non-empty message array, with
fuel five per element. -/
theorem parse_items_emit_msgs :
    ∀ (ms : List ChatGPTMessage) (m : ChatGPTMessage) (f : Nat) (rest : List Char),
      parse_items (f + 5 * ms.length + 5) (emit_items ((m :: ms).map msg_json) ++ (']' :: rest))
        = some ((m :: ms).map msg_json, rest)
  | [], m, f, rest => by
    rw [show ([m].map msg_json) = [msg_json m] from rfl,
        show emit_items [msg_json m] = emit (msg_json m) from by rw [emit_items.eq_def]]
    exact parse_items_emit_last f m rest
  | m2 :: tl, m, f, rest => by
    rw [show ((m :: m2 :: tl).map msg_json)
        = msg_json m :: msg_json m2 :: tl.map msg_json from rfl]
    rw [show emit_items (msg_json m :: msg_json m2 :: tl.map msg_json)
        = emit (msg_json m) ++ ',' :: emit_items (msg_json m2 :: tl.map msg_json) from by
      rw [emit_items.eq_def]]
    rw [List.append_assoc, List.cons_append]
    have h5 : f + 5 * (m2 :: tl).length + 5 = ((f + 4) + 5 * tl.length + 5) + 1 := by
      rw [List.length_cons]
      omega
    rw [h5, show ((f + 4) + 5 * tl.length + 5) + 1
        = ((f + 5 * tl.length + 5) + 5 : Nat) from by omega]
    exact parse_items_emit_cons (f + 5 * tl.length + 5) m
      (emit_items ((m2 :: tl).map msg_json) ++ (']' :: rest))
      ((m2 :: tl).map msg_json) rest
      (by
        rw [show (f + 5 * tl.length + 5) + 4 = ((f + 4) + 5 * tl.length + 5 : Nat) from by
          omega]
        exact parse_items_emit_msgs tl m2 (f + 4) rest)

/-- A printed string is at least its two quotes long. -/
theorem two_le_emit_str_len (s : List Char) : 2 ≤ (emit_str s).length := by
  simp [emit_str]

/-- Every printed message object is at least 24 characters long. -/
theorem emit_msg_len (m : ChatGPTMessage) : 24 ≤ (emit (msg_json m)).length := by
  have h := emit_msg_head m []
  rw [List.append_nil] at h
  rw [h]
  rw [show emit_fields [(chars "role", .jstr m.role), (chars "content", .jstr m.content)]
      = emit_str (chars "role") ++ (':' :: (emit_str m.role
          ++ (',' :: (emit_str (chars "content") ++ (':' :: emit_str m.content))))) from by
    rw [emit_fields.eq_def]
    dsimp only
    rw [emit_fields.eq_def]
    dsimp only
    rw [emit.eq_def, emit.eq_def]
    simp]
  have h1 : (emit_str (chars "role")).length = 6 := by decide
  have h2 : (emit_str (chars "content")).length = 9 := by decide
  have h3 := two_le_emit_str_len m.role
  have h4 := two_le_emit_str_len m.content
  simp only [List.length_cons, List.length_append]
  omega

/-- The printed elements of a non-empty message array are long enough to
pay five units of reading fuel per element, plus three. -/
theorem emit_items_msgs_len :
    ∀ (ms : List ChatGPTMessage) (m : ChatGPTMessage),
      5 * ms.length + 5 ≤ (emit_items ((m :: ms).map msg_json)).length + 2
  | [], m => by
    have h := emit_msg_len m
    rw [show ([m].map msg_json) = [msg_json m] from rfl,
        show emit_items [msg_json m] = emit (msg_json m) from by rw [emit_items.eq_def]]
    simp only [List.length_nil]
    omega
  | m2 :: tl, m => by
    have h1 := emit_msg_len m
    have h2 := emit_items_msgs_len tl m2
    rw [show ((m :: m2 :: tl).map msg_json)
        = msg_json m :: msg_json m2 :: tl.map msg_json from rfl]
    rw [show emit_items (msg_json m :: msg_json m2 :: tl.map msg_json)
        = emit (msg_json m) ++ ',' :: emit_items (msg_json m2 :: tl.map msg_json) from by
      rw [emit_items.eq_def]]
    rw [show (msg_json m2 :: tl.map msg_json) = ((m2 :: tl).map msg_json) from rfl] at *
    simp only [List.length_append, List.length_cons, List.length_map] at *
    omega

/-- A printed non-empty message-element run starts with the first object's
opening brace, whatever follows it. -/
theorem emit_items_msgs_head (m : ChatGPTMessage) (ms : List ChatGPTMessage)
    (x : List Char) :
    ∃ tl, emit_items ((m :: ms).map msg_json) ++ x = '{' :: tl := by
  cases ms with
  | nil =>
    rw [show ([m].map msg_json) = [msg_json m] from rfl,
        show emit_items [msg_json m] = emit (msg_json m) from by rw [emit_items.eq_def]]
    exact ⟨_, emit_msg_head m x⟩
  | cons m2 tl2 =>
    rw [show ((m :: m2 :: tl2).map msg_json)
        = msg_json m :: msg_json m2 :: tl2.map msg_json from rfl]
    rw [show emit_items (msg_json m :: msg_json m2 :: tl2.map msg_json)
        = emit (msg_json m) ++ ',' :: emit_items (msg_json m2 :: tl2.map msg_json) from by
      rw [emit_items.eq_def]]
    rw [List.append_assoc]
    exact ⟨_, emit_msg_head m _⟩

/-- Reading back the whole printed message array recovers it exactly. -/
theorem cJSON_Parse_emit_msgs (msgs : List ChatGPTMessage) :
    cJSON_Parse (emit (.jarr (msgs.map msg_json))) = some (.jarr (msgs.map msg_json)) := by
  match msgs with
  | [] => rfl
  | m :: ms =>
    unfold cJSON_Parse
    have harr : emit (.jarr ((m :: ms).map msg_json))
        = '[' :: (emit_items ((m :: ms).map msg_json) ++ (']' :: [])) := by
      rw [emit.eq_def]
    have hlen := emit_items_msgs_len ms m
    obtain ⟨f, hf⟩ : ∃ f, (emit (.jarr ((m :: ms).map msg_json))).length
        = f + 5 * ms.length + 5 := by
      refine ⟨(emit (.jarr ((m :: ms).map msg_json))).length - (5 * ms.length + 5), ?_⟩
      rw [harr]
      simp only [List.length_cons, List.length_append]
      omega
    rw [hf, harr]
    obtain ⟨tl, htl⟩ := emit_items_msgs_head m ms (']' :: [])
    rw [htl, parse_value_step_arr, ← htl, parse_items_emit_msgs ms m f []]
    rfl

/-- Loading the document elements of a printed message list appends exactly
those messages. -/
theorem load_items_emit_msgs :
    ∀ (msgs : List ChatGPTMessage) (c0 : ChatGPTConversation),
      (msgs.map msg_json).foldl load_item c0
        = { c0 with messages := c0.messages ++ msgs }
  | [], c0 => by simp
  | m :: tl, c0 => by
    have hne : ¬(chars "role" = chars "content") := by decide
    have hstep : load_item c0 (msg_json m)
        = { c0 with messages := c0.messages ++ [m] } := by
      simp [load_item, msg_json, cJSON_GetObjectItem, find_member, hne, cJSON_IsString,
        cJSON_valuestring, chatgpt_add_message]
    rw [List.map_cons, List.foldl_cons, hstep, load_items_emit_msgs tl _]
    simp

/-- C7: saving a conversation and loading the written file into any other
conversation succeeds and reproduces the identical ordered sequence of
(role, content) pairs, for any number of messages with arbitrary role and
content strings. -/
theorem C7_save_load_round_trip :
    ∀ (c c2 : ChatGPTConversation),
      (chatgpt_load_conversation c2 (some (chatgpt_save_conversation c))).1 = .CHATGPT_OK
      ∧ (chatgpt_load_conversation c2 (some (chatgpt_save_conversation c))).2.messages
          = c.messages := by
  intro c c2
  have hparse := cJSON_Parse_emit_msgs c.messages
  have hsave : chatgpt_save_conversation c = emit (.jarr (c.messages.map msg_json)) := rfl
  rw [show chatgpt_load_conversation c2 (some (chatgpt_save_conversation c))
      = (.CHATGPT_OK, (c.messages.map msg_json).foldl load_item (chatgpt_clear_messages c2).2)
    from by
      unfold chatgpt_load_conversation
      simp only []
      rw [hsave, hparse]]
  rw [load_items_emit_msgs c.messages (chatgpt_clear_messages c2).2]
  exact ⟨rfl, by simp [chatgpt_clear_messages]⟩

end ChatC
